import Mathlib

set_option maxHeartbeats 1000000

namespace GoImap

/-!
Shallow embedding of the go-imap transport and LIST response code.

The first part models `responses/list.go`: the `List` response handler
(`Name`, `Handle`, `WriteTo`) together with the helper functions
`intersection` and `removeDups` and the `specialuse` vocabulary.

The second part models the connection transport (`Conn`, `init`, `Upgrade`,
`Wait`, `multiFlusher`, the debug tap writers/readers and the `ConnState`
constants).

External go-imap primitives that are not part of the sources
(`imap.ParseNamedResp`, `MailboxInfo.Parse`, `MailboxInfo.Format`,
`Writer.Flush`) are either taken as parameters of the embedded operations or
modelled from the spec, as noted on each definition.
-/

/-- `listName = "LIST"` from `responses/list.go`. -/
def listName : String := "LIST"

/-- `lsubName = "LSUB"` from `responses/list.go`. -/
def lsubName : String := "LSUB"

/-- `imap.MailboxInfo`: mailbox name, hierarchy delimiter, attribute tokens. -/
structure MailboxInfo where
  Name : String
  Delimiter : String
  Attributes : List String
deriving DecidableEq, Repr

/-- The configuration part of the `List` response handler: the `Subscribed`
and `SpecialUse` flags.  The `Mailboxes` channel is modelled separately as the
list of records a run delivers. -/
structure ListResp where
  Subscribed : Bool
  SpecialUse : Bool
deriving DecidableEq, Repr

/-- `(*List).Name`: `LSUB` when `Subscribed` is set, else `LIST`. -/
def ListResp.Name (r : ListResp) : String :=
  if r.Subscribed then lsubName else listName

/-- Possible outcomes of `(*List).Handle`: the `ErrUnhandled` sentinel, a
decode error from `MailboxInfo.Parse`, or success. -/
inductive HandleOutcome where
  | unhandled
  | decodeErr (e : Nat)
  | handled
deriving DecidableEq, Repr

/-- `(*List).Handle`: the result of `imap.ParseNamedResp` is the `parsed`
argument (`none` models `ok = false`), and `MailboxInfo.Parse` (external to
the sources) is the `mboxParse` argument.  The second component is the list
of records sent on the `Mailboxes` channel during the call. -/
def ListResp.Handle {F : Type} (r : ListResp)
    (parsed : Option (String × List F))
    (mboxParse : List F → Except Nat MailboxInfo) :
    HandleOutcome × List MailboxInfo :=
  match parsed with
  | none => (HandleOutcome.unhandled, [])
  | some (name, fields) =>
    if name = r.Name then
      match mboxParse fields with
      | Except.error e => (HandleOutcome.decodeErr e, [])
      | Except.ok mbox => (HandleOutcome.handled, [mbox])
    else (HandleOutcome.unhandled, [])

/-- The loop of `removeDups`, carrying the `encountered` set. -/
def removeDupsAux : List String → List String → List String
  | _, [] => []
  | encountered, e :: rest =>
    if e ∈ encountered then removeDupsAux encountered rest
    else e :: removeDupsAux (e :: encountered) rest

/-- `removeDups` from `responses/list.go`. -/
def removeDups (elements : List String) : List String :=
  removeDupsAux [] elements

/-- `intersection` from `responses/list.go`: build a membership map from `s1`,
keep the elements of `s2` found in it, then remove duplicates. -/
def intersection (s1 s2 : List String) : List String :=
  removeDups (s2.filter (fun e => decide (e ∈ s1)))

/-- The `specialuse` vocabulary from `responses/list.go`. -/
def specialuse : List String :=
  ["\\ALL", "\\Archive", "\\Drafts", "\\Flagged", "\\Junk", "\\Sent", "\\Trash", "\\Important"]

/-- `(*List).WriteTo`: drains the `Mailboxes` channel (given as a list),
skips records whose attributes meet `specialuse` in an empty intersection
when `SpecialUse` is set, and writes one line (`Name` token followed by the
formatted mailbox) per remaining record.  `MailboxInfo.Format` (external to
the sources) is the `fmt` argument and the line writer `resp.WriteTo(w)` is
the `write` argument; a write error aborts the drain and is returned.  The
second component is the list of lines written successfully. -/
def ListResp.writeTo {F : Type} (r : ListResp) (fmt : MailboxInfo → List F)
    (write : String × List F → Option Nat) :
    List MailboxInfo → Option Nat × List (String × List F)
  | [] => (none, [])
  | mbox :: rest =>
    if r.SpecialUse = true ∧ (intersection mbox.Attributes specialuse).length = 0 then
      ListResp.writeTo r fmt write rest
    else
      let line := (r.Name, fmt mbox)
      match write line with
      | some e => (some e, [])
      | none =>
        let out := ListResp.writeTo r fmt write rest
        (out.1, line :: out.2)

/-- `(*multiFlusher).Flush`: each entry is the outcome of that flusher's
`Flush`, in construction order.  Returns the first error (or `none`) paired
with the number of flushers whose `Flush` was attempted. -/
def multiFlush : List (Option Nat) → Option Nat × Nat
  | [] => (none, 0)
  | f :: rest =>
    match f with
    | some e => (some e, 1)
    | none =>
      let out := multiFlush rest
      (out.1, out.2 + 1)

/-- `ConnectingState = 0`. -/
def ConnectingState : Nat := 0

/-- `NotAuthenticatedState ConnState = 1 << 0`. -/
def NotAuthenticatedState : Nat := 1 <<< 0

/-- `AuthenticatedState = 1 << 1`. -/
def AuthenticatedState : Nat := 1 <<< 1

/-- `SelectedState = AuthenticatedState + 1<<2` (Go gives `<<` higher
precedence than `+`, as Lean does for `<<<`). -/
def SelectedState : Nat := AuthenticatedState + 1 <<< 2

/-- `LogoutState = 1 << 3`. -/
def LogoutState : Nat := 1 <<< 3

/-- `ConnectedState = NotAuthenticatedState | AuthenticatedState | SelectedState`. -/
def ConnectedState : Nat := NotAuthenticatedState ||| AuthenticatedState ||| SelectedState

end GoImap

namespace GoImap

/-! ### Debug tap model

Byte-level model of the read/write paths that `Conn.init` wires up: the
network stream and the diagnostic sink are byte accumulators, and the
underlying connection write may fail according to an error oracle `cw`
(the sink likewise via `sw`).  A write that fails appends nothing. -/

/-- Observable byte state: bytes that reached the real stream, bytes that
reached the diagnostic sink, and bytes still pending to be read. -/
structure NetState where
  connOut : List Nat
  sinkOut : List Nat
  connIn : List Nat
deriving DecidableEq, Repr

/-- A write straight to the underlying connection. -/
def rawWrite (cw : List Nat → Option Nat) (b : List Nat) (st : NetState) :
    Option Nat × NetState :=
  match cw b with
  | some e => (some e, st)
  | none => (none, { st with connOut := st.connOut ++ b })

/-- A write to the diagnostic sink. -/
def sinkWrite (sw : List Nat → Option Nat) (b : List Nat) (st : NetState) :
    Option Nat × NetState :=
  match sw b with
  | some e => (some e, st)
  | none => (none, { st with sinkOut := st.sinkOut ++ b })

/-- `io.MultiWriter(c.Conn, localDebug)`: write to the connection first, then
to the sink; the first error is returned. -/
def multiWriterWrite (cw sw : List Nat → Option Nat) (b : List Nat) (st : NetState) :
    Option Nat × NetState :=
  match rawWrite cw b st with
  | (some e, st1) => (some e, st1)
  | (none, st1) => sinkWrite sw b st1

/-- The write path `Conn.init` installs: tapped through `io.MultiWriter` when
a local debug sink is configured, the raw connection otherwise. -/
def connWriter (tapped : Bool) (cw sw : List Nat → Option Nat) (b : List Nat) (st : NetState) :
    Option Nat × NetState :=
  if tapped then multiWriterWrite cw sw b st else rawWrite cw b st

/-- A read straight from the underlying connection: delivers up to `k`
pending bytes. -/
def rawRead (k : Nat) (st : NetState) : List Nat × NetState :=
  (st.connIn.take k, { st with connIn := st.connIn.drop k })

/-- `io.TeeReader(c.Conn, remoteDebug)`: read from the connection, then copy
the bytes read (if any) to the sink; a sink error is reported alongside the
bytes already delivered. -/
def teeRead (sw : List Nat → Option Nat) (k : Nat) (st : NetState) :
    (List Nat × Option Nat) × NetState :=
  let r := rawRead k st
  if r.1.isEmpty then ((r.1, none), r.2)
  else
    match sw r.1 with
    | some e => ((r.1, some e), r.2)
    | none => ((r.1, none), { r.2 with sinkOut := r.2.sinkOut ++ r.1 })

/-- The read path `Conn.init` installs: tapped through `io.TeeReader` when a
remote debug sink is configured, the raw connection otherwise. -/
def connReader (tapped : Bool) (sw : List Nat → Option Nat) (k : Nat) (st : NetState) :
    (List Nat × Option Nat) × NetState :=
  if tapped then teeRead sw k st
  else
    let r := rawRead k st
    ((r.1, none), r.2)

end GoImap

namespace GoImap

/-! ### Connection transport model

State-level model of `Conn`, `Conn.init`, `Conn.Upgrade` and `Conn.Wait`.
Streams carry an identity and whether their dynamic type exposes a `Flush`
method (the `flusher` capability probe in `init`). -/

/-- A `net.Conn` value: an identity plus whether it implements `flusher`. -/
structure Stream where
  sid : Nat
  hasFlush : Bool
deriving DecidableEq, Repr

/-- What `Writer.Writer` currently holds: the buffered writer alone, or the
anonymous struct embedding the buffered writer together with
`multiFlusher(bw, f)` where `f` is the flusher of the stream with the given
identity. -/
inductive WriterW where
  | buf
  | bufMulti (sid : Nat)
deriving DecidableEq, Repr

/-- State of the `waits` channel: nil (never made), open (made, not yet
closed) or closed. -/
inductive WaitsState where
  | nilChan
  | openChan
  | closedChan
deriving DecidableEq, Repr

/-- The `Conn` transport: current stream, the stream the buffered reader and
writer are bound to (`none` while the corresponding `bufio` buffer is still
nil), the `Writer.Writer` binding, and the `waits` gate. -/
structure ConnT where
  conn : Stream
  brTarget : Option Nat
  bwTarget : Option Nat
  writerW : WriterW
  waits : WaitsState
deriving DecidableEq, Repr

/-- `Conn.init` (modelled without the debug branch, which the byte-level tap
model covers): rebind (or allocate) the buffered reader and writer to the
current stream — the `bw == nil` branch also sets `Writer.Writer = bw` —
then, only when the current stream implements `flusher`, install the
aggregated `multiFlusher` binding. -/
def ConnT.init (c : ConnT) : ConnT :=
  let c1 := { c with brTarget := some c.conn.sid }
  let c2 :=
    match c1.bwTarget with
    | none => { c1 with bwTarget := some c1.conn.sid, writerW := WriterW.buf }
    | some _ => { c1 with bwTarget := some c1.conn.sid }
  if c2.conn.hasFlush then { c2 with writerW := WriterW.bufMulti c2.conn.sid } else c2

/-- `NewConn`: fresh transport with nil buffers, then `init`. -/
def newConn (s : Stream) : ConnT :=
  ConnT.init
    { conn := s, brTarget := none, bwTarget := none
      writerW := WriterW.buf, waits := WaitsState.nilChan }

/-- A flushable sink reachable from `Writer.Writer`: the buffered writer
itself, or the `Flush` method of the stream with the given identity. -/
inductive FlushTarget where
  | bufWriter
  | streamFlusher (sid : Nat)
deriving DecidableEq, Repr

/-- Modelled from the spec: `Writer.Flush` (defined outside these sources)
flushes whatever `Writer.Writer` holds — the buffered writer alone, or, when
`init` installed the aggregated strategy, `multiFlusher(bw, f)` which flushes
the buffered writer and then the captured stream's flusher. -/
def ConnT.flushTargets (c : ConnT) : List FlushTarget :=
  match c.writerW with
  | WriterW.buf => [FlushTarget.bufWriter]
  | WriterW.bufMulti sid => [FlushTarget.bufWriter, FlushTarget.streamFlusher sid]

/-- `Conn.Flush` under a flush-outcome oracle `fo`: flush the targets in
order with `multiFlusher` short-circuit semantics and return the first
error. -/
def ConnT.flushRun (c : ConnT) (fo : FlushTarget → Option Nat) : Option Nat :=
  (multiFlush (c.flushTargets.map fo)).1

/-- `Conn.Upgrade`: flush pending output (abort on error), make the `waits`
gate, call the upgrader on the current stream (on error the deferred close
still runs), and on success adopt the new stream and re-run `init`.  Returns
the error, the resulting transport state, and whether the upgrader was
invoked. -/
def ConnT.upgrade (c : ConnT) (fo : FlushTarget → Option Nat)
    (upgrader : Stream → Except Nat Stream) : Option Nat × ConnT × Bool :=
  match c.flushRun fo with
  | some e => (some e, c, false)
  | none =>
    let c1 := { c with waits := WaitsState.openChan }
    match upgrader c1.conn with
    | Except.error e => (some e, { c1 with waits := WaitsState.closedChan }, true)
    | Except.ok upgraded =>
      let c2 := ConnT.init { c1 with conn := upgraded }
      (none, { c2 with waits := WaitsState.closedChan }, true)

/-- `Conn.Wait` blocks exactly when `waits` is a non-nil channel that has not
been closed. -/
def ConnT.waitBlocks (c : ConnT) : Bool :=
  match c.waits with
  | WaitsState.openChan => true
  | _ => false

/-- The response name the configuration does not select. -/
def otherName (r : ListResp) : String := if r.Subscribed then listName else lsubName

/-- Mailbox record with no attributes (spec scenario record 1). -/
def mbox1 : MailboxInfo := { Name := "a", Delimiter := "/", Attributes := [] }

/-- Mailbox record with attributes `{"\\Archive"}` (spec scenario record 2). -/
def mbox2 : MailboxInfo := { Name := "b", Delimiter := "/", Attributes := ["\\Archive"] }

/-- Mailbox record with attributes `{"\\Noselect"}` (spec scenario record 3). -/
def mbox3 : MailboxInfo := { Name := "c", Delimiter := "/", Attributes := ["\\Noselect"] }

/-- Mailbox record with attributes `{"\\Sent","\\Noselect"}` (spec scenario record 4). -/
def mbox4 : MailboxInfo := { Name := "d", Delimiter := "/", Attributes := ["\\Sent", "\\Noselect"] }

/-- A stream whose dynamic type exposes a `Flush` method. -/
def streamA : Stream := { sid := 0, hasFlush := true }

/-- A replacement stream with no `Flush` method (e.g. a TLS wrapper). -/
def streamB : Stream := { sid := 1, hasFlush := false }

/-- An upgrader that succeeds and yields `streamB`. -/
def upgradeToB : Stream → Except Nat Stream := fun _ => Except.ok streamB

/-- A flush oracle under which every flush succeeds. -/
def noFailFlush : FlushTarget → Option Nat := fun _ => none

/-- Upgrading a fresh transport on `streamA` (a flusher) to `streamB` (not a
flusher): the returned error, the post-upgrade transport state, and whether
the upgrader ran. -/
def staleFlushRun : Option Nat × ConnT × Bool :=
  (newConn streamA).upgrade noFailFlush upgradeToB

/-- The transport state after a successful upgrade. -/
def upgradedConn (c : ConnT) (fo : FlushTarget → Option Nat)
    (upgrader : Stream → Except Nat Stream) : ConnT :=
  (c.upgrade fo upgrader).2.1

end GoImap

namespace GoImap

/-! ### Helper lemmas about `removeDups` and `intersection`. -/

theorem mem_removeDupsAux (l : List String) :
    ∀ (enc : List String) (x : String),
      x ∈ removeDupsAux enc l ↔ x ∈ l ∧ x ∉ enc := by
  induction l with
  | nil => intro enc x; simp [removeDupsAux]
  | cons e rest ih =>
    intro enc x
    by_cases he : e ∈ enc
    · simp only [removeDupsAux, if_pos he, ih, List.mem_cons]
      constructor
      · rintro ⟨hx, hnx⟩; exact ⟨Or.inr hx, hnx⟩
      · rintro ⟨hx | hx, hnx⟩
        · exact absurd (hx ▸ he) hnx
        · exact ⟨hx, hnx⟩
    · simp only [removeDupsAux, if_neg he, List.mem_cons, ih]
      by_cases hxe : x = e
      · subst hxe; simp [he]
      · simp [hxe]

theorem nodup_removeDupsAux (l : List String) :
    ∀ enc : List String, (removeDupsAux enc l).Nodup := by
  induction l with
  | nil => intro enc; simp [removeDupsAux]
  | cons e rest ih =>
    intro enc
    by_cases he : e ∈ enc
    · simpa [removeDupsAux, he] using ih enc
    · simp only [removeDupsAux, if_neg he, List.nodup_cons]
      refine ⟨?_, ih (e :: enc)⟩
      rw [mem_removeDupsAux]
      simp

theorem sublist_removeDupsAux (l : List String) :
    ∀ enc : List String, List.Sublist (removeDupsAux enc l) l := by
  induction l with
  | nil => intro enc; simp [removeDupsAux]
  | cons e rest ih =>
    intro enc
    by_cases he : e ∈ enc
    · simp only [removeDupsAux, if_pos he]
      exact List.Sublist.trans (ih enc) (List.sublist_cons_self e rest)
    · simp only [removeDupsAux, if_neg he]
      exact List.Sublist.cons₂ e (ih (e :: enc))

theorem mem_intersection (s1 s2 : List String) (x : String) :
    x ∈ intersection s1 s2 ↔ x ∈ s1 ∧ x ∈ s2 := by
  simp only [intersection, removeDups, mem_removeDupsAux, List.mem_filter,
    decide_eq_true_eq, List.not_mem_nil, not_false_iff, and_true]
  tauto

theorem nodup_intersection (s1 s2 : List String) : (intersection s1 s2).Nodup :=
  nodup_removeDupsAux _ []

theorem intersection_sublist (s1 s2 : List String) :
    List.Sublist (intersection s1 s2) s2 :=
  List.Sublist.trans (sublist_removeDupsAux _ []) (List.filter_sublist s2)

theorem intersection_membership_congr (s1 s1' s2 : List String)
    (h : ∀ x, x ∈ s1' ↔ x ∈ s1) : intersection s1' s2 = intersection s1 s2 := by
  unfold intersection
  congr 1
  apply List.filter_congr
  intro x _
  simp [h x]

theorem writeTo_length_le {F : Type} (r : ListResp) (fmt : MailboxInfo → List F)
    (write : String × List F → Option Nat) :
    ∀ mboxes : List MailboxInfo,
      ((ListResp.writeTo r fmt write mboxes).2).length ≤ mboxes.length := by
  intro mboxes
  induction mboxes with
  | nil => simp [ListResp.writeTo]
  | cons m rest ih =>
    rw [ListResp.writeTo]
    by_cases hc : r.SpecialUse = true ∧ (intersection m.Attributes specialuse).length = 0
    · simp only [if_pos hc]
      exact Nat.le_succ_of_le ih
    · simp only [if_neg hc]
      cases hw : write (r.Name, fmt m) with
      | some e => simp
      | none => simpa using Nat.succ_le_succ ih

theorem multiFlush_all_none :
    ∀ fs : List (Option Nat), (∀ f ∈ fs, f = none) →
      multiFlush fs = (none, fs.length) := by
  intro fs
  induction fs with
  | nil => intro _; rfl
  | cons f rest ih =>
    intro h
    have hf : f = none := h f (List.mem_cons_self f rest)
    subst hf
    have hrest : ∀ g ∈ rest, g = none := fun g hg => h g (List.mem_cons_of_mem _ hg)
    simp [multiFlush, ih hrest]

theorem multiFlush_first_some :
    ∀ (pre : List (Option Nat)) (e : Nat) (post : List (Option Nat)),
      (∀ f ∈ pre, f = none) →
      multiFlush (pre ++ some e :: post) = (some e, pre.length + 1) := by
  intro pre
  induction pre with
  | nil => intro e post _; rfl
  | cons f rest ih =>
    intro e post h
    have hf : f = none := h f (List.mem_cons_self f rest)
    subst hf
    have hrest : ∀ g ∈ rest, g = none := fun g hg => h g (List.mem_cons_of_mem _ hg)
    simp [multiFlush, ih e post hrest]

end GoImap

namespace GoImap

/-! ### Claim theorems for the response layer. -/

/-- Claim C9: the connection-state constants form the stated bitmask —
`SelectedState`'s bits strictly contain `AuthenticatedState`'s bits, and
`ConnectedState` is the bitwise union of the not-authenticated,
authenticated and selected states. -/
theorem connState_bitmask :
    SelectedState ||| AuthenticatedState = SelectedState ∧
    SelectedState ≠ AuthenticatedState ∧
    AuthenticatedState = 2 ∧ SelectedState = 6 ∧
    ConnectedState = NotAuthenticatedState ||| AuthenticatedState ||| SelectedState ∧
    ConnectedState = 7 := by
  decide

/-- Claim C3: `intersection` is computed by set membership — its output is
duplicate-free, contains exactly the elements present in both lists, depends
only on the membership set of the first list (so a repeated special-use
token counts once when deciding emission), follows the insertion order of
the side iterated during matching (it is a sublist of the second list), and
`WriteTo` emits at most one line per drained record, so no response line is
duplicated. -/
theorem intersection_set_semantics :
    (∀ s1 s2 : List String, (intersection s1 s2).Nodup) ∧
    (∀ s1 s2 : List String, ∀ x, x ∈ intersection s1 s2 ↔ x ∈ s1 ∧ x ∈ s2) ∧
    (∀ s1 s1' s2 : List String, (∀ x, x ∈ s1' ↔ x ∈ s1) →
      intersection s1' s2 = intersection s1 s2) ∧
    (∀ s1 s2 : List String, List.Sublist (intersection s1 s2) s2) ∧
    (∀ (F : Type) (r : ListResp) (fmt : MailboxInfo → List F)
        (write : String × List F → Option Nat) (mboxes : List MailboxInfo),
      ((ListResp.writeTo r fmt write mboxes).2).length ≤ mboxes.length) :=
  ⟨nodup_intersection, mem_intersection, intersection_membership_congr,
    intersection_sublist, fun _ r fmt write mboxes => writeTo_length_le r fmt write mboxes⟩

/-- Witness for C3 at concrete inputs: a duplicated attribute list gives the
same intersection as its deduplicated form. -/
theorem intersection_set_semantics_witness :
    intersection ["\\Sent", "\\Sent"] specialuse = intersection ["\\Sent"] specialuse :=
  intersection_set_semantics.2.2.1 ["\\Sent"] ["\\Sent", "\\Sent"] specialuse
    (by intro x; constructor <;> (intro h; simp at h; simp [h]))

/-- Claim C4: `Handle` either returns the `ErrUnhandled` sentinel with no
record delivered, or a decode error with no record delivered, or delivers
exactly one mailbox record and returns success. -/
theorem handle_trichotomy :
    ∀ (F : Type) (r : ListResp) (parsed : Option (String × List F))
      (mp : List F → Except Nat MailboxInfo),
      r.Handle parsed mp = (HandleOutcome.unhandled, []) ∨
      (∃ e, r.Handle parsed mp = (HandleOutcome.decodeErr e, [])) ∨
      (∃ m, r.Handle parsed mp = (HandleOutcome.handled, [m])) := by
  intro F r parsed mp
  match parsed with
  | none => exact Or.inl rfl
  | some (name, fields) =>
    by_cases hn : name = r.Name
    · cases hmp : mp fields with
      | error e => exact Or.inr (Or.inl ⟨e, by simp [ListResp.Handle, hn, hmp]⟩)
      | ok m => exact Or.inr (Or.inr ⟨m, by simp [ListResp.Handle, hn, hmp]⟩)
    · exact Or.inl (by simp [ListResp.Handle, hn])

/-- Claim C5: draining the spec's four mailbox records through `WriteTo`
emits exactly records 2 and 4 with special-use filtering enabled, all four
with it disabled, in receive order, one encoded line per emitted record. -/
theorem writeTo_specialuse_filtering :
    ∀ (F : Type) (fmt : MailboxInfo → List F),
      ListResp.writeTo { Subscribed := false, SpecialUse := true } fmt (fun _ => none)
          [mbox1, mbox2, mbox3, mbox4]
        = (none, [(listName, fmt mbox2), (listName, fmt mbox4)]) ∧
      ListResp.writeTo { Subscribed := false, SpecialUse := false } fmt (fun _ => none)
          [mbox1, mbox2, mbox3, mbox4]
        = (none, [(listName, fmt mbox1), (listName, fmt mbox2),
            (listName, fmt mbox3), (listName, fmt mbox4)]) := by
  intro F fmt
  constructor <;> rfl

/-- Claim C6: the reported name is the subscribed response name exactly when
the subscribed flag is set and the list-all name otherwise, as a pure
function of configuration; `Handle` leaves a line carrying the other
variant's name unclaimed (the sentinel, no record), and never returns the
sentinel for a line carrying the reported name. -/
theorem name_selection_and_claiming :
    ∀ (F : Type) (r : ListResp) (fields : List F)
      (mp : List F → Except Nat MailboxInfo),
      r.Name = (if r.Subscribed then lsubName else listName) ∧
      r.Name ≠ otherName r ∧
      r.Handle (some (otherName r, fields)) mp = (HandleOutcome.unhandled, []) ∧
      (r.Handle (some (r.Name, fields)) mp).1 ≠ HandleOutcome.unhandled := by
  intro F r fields mp
  have hne : otherName r ≠ r.Name := by
    cases hr : r.Subscribed <;> simp [ListResp.Name, otherName, hr, listName, lsubName]
  refine ⟨rfl, fun h => hne h.symm, ?_, ?_⟩
  · simp [ListResp.Handle, hne]
  · simp only [ListResp.Handle, if_pos rfl]
    cases mp fields <;> simp

/-- Claim C7: the aggregate `Flush` flushes the sinks in construction order,
returns `none` when every sink succeeds (after attempting all of them), and
stops at the first failing sink, returning its error without attempting any
later sink. -/
theorem multiFlusher_first_error :
    ∀ fs : List (Option Nat),
      ((∀ f ∈ fs, f = none) → multiFlush fs = (none, fs.length)) ∧
      (∀ (pre post : List (Option Nat)) (e : Nat),
        fs = pre ++ some e :: post → (∀ f ∈ pre, f = none) →
        multiFlush fs = (some e, pre.length + 1)) := by
  intro fs
  constructor
  · exact multiFlush_all_none fs
  · intro pre post e hfs hpre
    subst hfs
    exact multiFlush_first_some pre e post hpre

/-- Witness for C7: two succeeding sinks flush to completion; a failure in
the second of three sinks is returned after two attempts, the third sink
untouched. -/
theorem multiFlusher_first_error_witness :
    multiFlush [none, none] = (none, 2) ∧
    multiFlush [none, some 5, none] = (some 5, 2) :=
  ⟨(multiFlusher_first_error [none, none]).1 (by decide),
    (multiFlusher_first_error [none, some 5, none]).2 [none] [none] 5 rfl (by decide)⟩

end GoImap

namespace GoImap

/-! ### Claim theorems for the connection transport. -/

/-- Claim C2: when the upgrader function fails, `Upgrade` returns that error
and the transport keeps the original stream: the stream reference, the
buffered writer's binding and the flush targets are those of the pre-upgrade
state (only the `waits` gate has been made and closed). -/
theorem upgrader_error_leaves_stream_unchanged :
    ∀ (c : ConnT) (fo : FlushTarget → Option Nat)
      (up : Stream → Except Nat Stream) (e : Nat),
      c.flushRun fo = none → up c.conn = Except.error e →
      c.upgrade fo up = (some e, { c with waits := WaitsState.closedChan }, true) ∧
      (upgradedConn c fo up).conn = c.conn ∧
      (upgradedConn c fo up).brTarget = c.brTarget ∧
      (upgradedConn c fo up).bwTarget = c.bwTarget ∧
      (upgradedConn c fo up).flushTargets = c.flushTargets := by
  intro c fo up e hflush hup
  have h1 : c.upgrade fo up = (some e, { c with waits := WaitsState.closedChan }, true) := by
    simp [ConnT.upgrade, hflush, hup]
  exact ⟨h1, by simp [upgradedConn, h1], by simp [upgradedConn, h1],
    by simp [upgradedConn, h1], by simp [upgradedConn, h1, ConnT.flushTargets]⟩

/-- Witness for C2: a failing upgrader on a fresh transport returns its
error and leaves everything but the (now closed) gate unchanged. -/
theorem upgrader_error_witness :
    (newConn streamA).upgrade noFailFlush (fun _ => Except.error 7)
      = (some 7, { newConn streamA with waits := WaitsState.closedChan }, true) :=
  (upgrader_error_leaves_stream_unchanged (newConn streamA) noFailFlush
    (fun _ => Except.error 7) 7 (by decide) rfl).1

/-- Claim C10: when the pre-upgrade flush fails, `Upgrade` returns the flush
error with the transport state completely unchanged — the upgrader is never
invoked, the `waits` gate is never made (so `Wait` blocks exactly as
before), and the stream and buffers are untouched. -/
theorem upgrade_flush_error_aborts :
    ∀ (c : ConnT) (fo : FlushTarget → Option Nat)
      (up : Stream → Except Nat Stream) (e : Nat),
      c.flushRun fo = some e →
      c.upgrade fo up = (some e, c, false) ∧
      (upgradedConn c fo up).waits = c.waits ∧
      ConnT.waitBlocks (upgradedConn c fo up) = ConnT.waitBlocks c := by
  intro c fo up e hflush
  have h1 : c.upgrade fo up = (some e, c, false) := by
    simp [ConnT.upgrade, hflush]
  exact ⟨h1, by simp [upgradedConn, h1], by simp [upgradedConn, h1]⟩

/-- Witness for C10: a transport whose flush fails with error 3 aborts the
upgrade with that error, upgrader uninvoked, state unchanged. -/
theorem upgrade_flush_error_witness :
    (newConn streamA).upgrade (fun _ => some 3) upgradeToB
      = (some 3, newConn streamA, false) :=
  (upgrade_flush_error_aborts (newConn streamA) (fun _ => some 3) upgradeToB 3
    (by decide)).1

/-- Claim C1 counterexample: upgrading a transport from a stream that
exposes `Flush` to one that does not succeeds and rebinds the buffers, yet
the resolved flush strategy still names the replaced stream's flusher —
`Flush` would flush the old stream's flush capability, not only the buffered
writer. -/
theorem upgrade_stale_flusher_counterexample :
    staleFlushRun.1 = none ∧
    staleFlushRun.2.2 = true ∧
    staleFlushRun.2.1.conn = streamB ∧
    streamB.hasFlush = false ∧
    staleFlushRun.2.1.flushTargets
      = [FlushTarget.bufWriter, FlushTarget.streamFlusher streamA.sid] ∧
    staleFlushRun.2.1.flushTargets ≠ [FlushTarget.bufWriter] := by
  decide

/-- Claim C1 (amended): outside an in-progress upgrade the buffered reader
and writer are bound to the current stream, and after every successful
`Upgrade` the flush strategy aggregates the post-upgrade stream's flush
capability whenever it exposes one; when it exposes none, `Flush` flushes
only the buffered writer — unless the transport had already resolved an
aggregated strategy for a replaced stream that exposed a flush capability,
in which case that stale capability is still flushed. -/
theorem upgrade_rebinds_buffers_flush_strategy :
    ∀ (c : ConnT) (fo : FlushTarget → Option Nat)
      (up : Stream → Except Nat Stream) (s : Stream),
      c.flushRun fo = none → up c.conn = Except.ok s →
      (upgradedConn c fo up).conn = s ∧
      (upgradedConn c fo up).brTarget = some s.sid ∧
      (upgradedConn c fo up).bwTarget = some s.sid ∧
      (s.hasFlush = true →
        (upgradedConn c fo up).flushTargets
          = [FlushTarget.bufWriter, FlushTarget.streamFlusher s.sid]) ∧
      (s.hasFlush = false → c.writerW = WriterW.buf →
        (upgradedConn c fo up).flushTargets = [FlushTarget.bufWriter]) ∧
      (s.hasFlush = false → c.bwTarget = none →
        (upgradedConn c fo up).flushTargets = [FlushTarget.bufWriter]) ∧
      (s.hasFlush = false → c.bwTarget ≠ none →
        ∀ sid, c.writerW = WriterW.bufMulti sid →
        (upgradedConn c fo up).flushTargets
          = [FlushTarget.bufWriter, FlushTarget.streamFlusher sid]) := by
  intro c fo up s hflush hup
  have h1 : upgradedConn c fo up
      = { ConnT.init { c with conn := s, waits := WaitsState.openChan } with
          waits := WaitsState.closedChan } := by
    simp [upgradedConn, ConnT.upgrade, hflush, hup]
  rw [h1]
  rcases hbw : c.bwTarget with _ | w <;> cases hhf : s.hasFlush <;>
    simp [ConnT.init, ConnT.flushTargets, hbw, hhf]
  refine ⟨fun hwb => by simp [hwb], fun sid hww => by simp [hww]⟩

/-- Witness for C1 (amended): upgrading `streamA` to `streamB` on a fresh
transport rebinds both buffers to `streamB`. -/
theorem upgrade_rebinds_witness :
    (upgradedConn (newConn streamA) noFailFlush upgradeToB).brTarget = some streamB.sid ∧
    (upgradedConn (newConn streamA) noFailFlush upgradeToB).bwTarget = some streamB.sid :=
  ⟨(upgrade_rebinds_buffers_flush_strategy (newConn streamA) noFailFlush upgradeToB
      streamB (by decide) rfl).2.1,
    (upgrade_rebinds_buffers_flush_strategy (newConn streamA) noFailFlush upgradeToB
      streamB (by decide) rfl).2.2.1⟩

/-- Claim C8: the diagnostic tap is byte-preserving.  On the write path the
tapped writer reports the same outcome and delivers the same bytes to the
real stream as the untapped writer, additionally copying the bytes to the
sink on success; on the read path the tapped reader delivers exactly the
bytes the raw read delivers, evolves the pending input identically, and
additionally copies the chunk to the sink; with no sink configured, both
paths are the raw stream operations and the sink sees nothing. -/
theorem debug_tap_byte_preserving :
    (∀ (cw sw : List Nat → Option Nat) (b : List Nat) (st : NetState),
      sw b = none →
        (connWriter true cw sw b st).1 = (connWriter false cw sw b st).1 ∧
        ((connWriter true cw sw b st).2).connOut = ((connWriter false cw sw b st).2).connOut ∧
        ((connWriter true cw sw b st).2).connIn = st.connIn ∧
        (cw b = none → ((connWriter true cw sw b st).2).sinkOut = st.sinkOut ++ b) ∧
        ((connWriter false cw sw b st).2).sinkOut = st.sinkOut) ∧
    (∀ (sw : List Nat → Option Nat) (k : Nat) (st : NetState),
      sw (st.connIn.take k) = none →
        (connReader true sw k st).1 = ((rawRead k st).1, none) ∧
        (connReader true sw k st).1 = (connReader false sw k st).1 ∧
        ((connReader true sw k st).2).connIn = ((connReader false sw k st).2).connIn ∧
        ((connReader true sw k st).2).connOut = st.connOut ∧
        ((connReader true sw k st).2).sinkOut = st.sinkOut ++ st.connIn.take k ∧
        ((connReader false sw k st).2).sinkOut = st.sinkOut) := by
  constructor
  · intro cw sw b st hsw
    cases hcw : cw b with
    | some e =>
      simp [connWriter, multiWriterWrite, rawWrite, sinkWrite, hcw, hsw]
    | none =>
      simp [connWriter, multiWriterWrite, rawWrite, sinkWrite, hcw, hsw]
  · intro sw k st hsw
    by_cases hempty : (st.connIn.take k).isEmpty
    · have hnil : st.connIn.take k = [] := List.isEmpty_iff.mp hempty
      simp [connReader, teeRead, rawRead, hempty, hnil]
    · simp [connReader, teeRead, rawRead, hempty, hsw]

/-- Witness for C8: a two-byte write and a one-byte read through the tap
with an always-succeeding sink. -/
theorem debug_tap_witness :
    (connWriter true (fun _ => none) (fun _ => none) [1, 2]
        { connOut := [], sinkOut := [], connIn := [5] }).1
      = (connWriter false (fun _ => none) (fun _ => none) [1, 2]
        { connOut := [], sinkOut := [], connIn := [5] }).1 ∧
    (connReader true (fun _ => none) 1
        { connOut := [], sinkOut := [], connIn := [5] }).1
      = ((rawRead 1 { connOut := [], sinkOut := [], connIn := [5] }).1, none) :=
  ⟨(debug_tap_byte_preserving.1 (fun _ => none) (fun _ => none) [1, 2]
      { connOut := [], sinkOut := [], connIn := [5] } rfl).1,
    (debug_tap_byte_preserving.2 (fun _ => none) 1
      { connOut := [], sinkOut := [], connIn := [5] } rfl).1⟩

end GoImap
